import Mathlib

/-
Shallow embedding of the transaction-submission driver of
YZYLAB/solana-swap-python (src/solanatracker.py): the commitment-level
comparator, the commitment-string resolver, the confirmation-waiter loop of
`_transaction_sender_and_confirmation_waiter`, and the exception-handling
shell of `perform_swap`. External collaborators (the RPC client) are modelled
as response oracles passed in as functions; sleeps, status polls and
block-height checks are recorded in an event trace.
-/

namespace SolanaSwap

/-- Transaction confirmation levels: `TransactionConfirmationStatus` in
solders, mirrored by the `Processed` / `Confirmed` / `Finalized` commitment
objects of `solana.rpc.commitment`. -/
inductive Level where
  | processed
  | confirmed
  | finalized
  deriving DecidableEq, Repr, Fintype

/-- Result of Python `str(TransactionConfirmationStatus.X)`, the rendering
`SolanaTracker._commitment_level_to_int` uses for its string comparisons. -/
def levelStr : Level → String
  | .processed => "TransactionConfirmationStatus.Processed"
  | .confirmed => "TransactionConfirmationStatus.Confirmed"
  | .finalized => "TransactionConfirmationStatus.Finalized"

/-- Embeds `SolanaTracker._commitment_level_to_int` (lines 389-402): the
stringified status is compared against the renderings of the three known
levels; any other value maps to `-1`. -/
def commitment_level_to_int (s : String) : Int :=
  if s = levelStr .processed then 0
  else if s = levelStr .confirmed then 1
  else if s = levelStr .finalized then 2
  else -1

/-- Embeds `SolanaTracker._is_commitment_level_sufficient` (lines 404-415).
The second component of the result records whether the warning branch for an
unknown level was taken (the Python code logs a warning there and returns
False; it never raises). -/
def is_commitment_level_sufficient (current_status desired_status : String) :
    Bool × Bool :=
  let current_level := commitment_level_to_int current_status
  let desired_level := commitment_level_to_int desired_status
  if current_level < 0 ∨ desired_level < 0 then (false, true)
  else (decide (current_level ≥ desired_level), false)

/-- Embeds the Python `str.lower()` call: characterwise lowercasing of the
string (the inputs of interest are ASCII). -/
def pyLower (s : String) : String := ⟨s.data.map Char.toLower⟩

/-- Embeds `_string_to_solana_commitment` (lines 89-101): the input is
lowercased and matched against the three known names; anything else logs a
warning (recorded in the second component) and defaults to `Confirmed`. -/
def string_to_solana_commitment (s : String) : Level × Bool :=
  let s_lower := pyLower s
  if s_lower = "processed" then (.processed, false)
  else if s_lower = "confirmed" then (.confirmed, false)
  else if s_lower = "finalized" then (.finalized, false)
  else (.confirmed, true)

/-- Rank of the three known levels in the order the spec states:
Processed < Confirmed < Finalized. -/
def levelRank : Level → Nat
  | .processed => 0
  | .confirmed => 1
  | .finalized => 2

/-- Transaction options as `_transaction_sender_and_confirmation_waiter`
consumes them, after `perform_swap` has merged defaults and resolved the
commitment string to a level. -/
structure WaiterConfig where
  confirmation_retries : Nat
  confirmation_retry_timeout_ms : Nat
  confirmation_check_interval_ms : Nat
  last_valid_block_height_buffer : Int
  commitment : Level
  skip_confirmation_check : Bool
  deriving DecidableEq, Repr

/-- Result of one `get_signature_statuses([signature])` call as the waiter
inspects it (lines 348-369): the entry can be missing or null
(`notVisible`), can carry an on-chain error and/or a confirmation status
(`status`), or the RPC call can raise (`transportError`). -/
inductive PollResult where
  | notVisible
  | status (err : Option String) (confStatus : Option Level)
  | transportError
  deriving DecidableEq, Repr

/-- Externally visible actions of the waiter, in order: sleeps (duration in
ms), status-poll calls, and block-height checks. -/
inductive Event where
  | sleep (ms : Nat)
  | pollCall (attempt : Nat)
  | heightCall (attempt : Nat)
  deriving DecidableEq, Repr

/-- Terminal results of `perform_swap` and the waiter. All constructors but
`raised` are explicit Python return values (`str` signature for success, an
exception object returned as a value otherwise); `raised` marks an exception
escaping a scope, and is eliminated by the enclosing `except` handlers. -/
inductive Outcome where
  | confirmedSig (sig : String)
  | failedTx (sig : String) (err : String)
  | expired (sig : String) (bh : Int)
  | timedOut (sig : String)
  | valueError (msg : String)
  | runtimeError (msg : String)
  | exn (msg : String)
  | raised (msg : String)
  deriving DecidableEq, Repr

/-- The conditional sleep at the top of each loop iteration (lines 344-345):
`if attempt > 0 or check_interval_s > 0: await asyncio.sleep(check_interval_s)`. -/
def preSleep (cfg : WaiterConfig) (attempt : Nat) : List Event :=
  if attempt > 0 ∨ cfg.confirmation_check_interval_ms > 0 then
    [.sleep cfg.confirmation_check_interval_ms]
  else []

/-- Embeds the `for attempt in range(retries + 1)` loop of
`_transaction_sender_and_confirmation_waiter` (lines 341-381). `fuel` is the
number of iterations left (initially `retries + 1`); when it runs out the
function returns the confirmation-timeout error (lines 379-381). Each
iteration sleeps the check interval (lines 344-345), polls the signature
status (lines 347-369) — returning the on-chain failure (lines 353-356) or
the confirmed signature (lines 358-362) when applicable, and sleeping the
retry timeout after a transport error (lines 366-369) — then checks the
block height and returns the expiry error when `current_bh < effective_lvbh`
(lines 371-377). A raised exception from the height check propagates as
`Outcome.raised` to the surrounding handler. The desired status passed to the
comparator is `_solana_commitment_to_transaction_confirmation_status` of the
configured commitment, which is the identity on the three levels. -/
def confirmationLoop (cfg : WaiterConfig) (polls : Nat → PollResult)
    (heights : Nat → Except String Int) (effectiveLvbh : Int) (sig : String) :
    Nat → Nat → List Event × Outcome
  | 0, _ => ([], .timedOut sig)
  | fuel + 1, attempt =>
    let pollEvs : List Event := preSleep cfg attempt ++ [.pollCall attempt]
    let statusStep : List Event × Option Outcome :=
      match polls attempt with
      | .transportError =>
        (pollEvs ++ [.sleep cfg.confirmation_retry_timeout_ms], none)
      | .notVisible => (pollEvs, none)
      | .status (some e) _ => (pollEvs, some (.failedTx sig e))
      | .status none (some lvl) =>
        if (is_commitment_level_sufficient (levelStr lvl)
            (levelStr cfg.commitment)).1 then
          (pollEvs, some (.confirmedSig sig))
        else (pollEvs, none)
      | .status none none => (pollEvs, none)
    match statusStep with
    | (evs, some out) => (evs, out)
    | (evs, none) =>
      match heights attempt with
      | .error e => (evs ++ [.heightCall attempt], .raised e)
      | .ok current_bh =>
        if current_bh < effectiveLvbh then
          (evs ++ [.heightCall attempt], .expired sig current_bh)
        else
          let rest := confirmationLoop cfg polls heights effectiveLvbh sig
            fuel (attempt + 1)
          (evs ++ [.heightCall attempt] ++ rest.1, rest.2)

/-- Embeds the `except` handler closing
`_transaction_sender_and_confirmation_waiter` (lines 383-387): a raised
exception is returned as a value; the exceptions collaborators raise here are
generic, so they take the wrapping branch. -/
def handleWaiterExn : Outcome → Outcome
  | .raised e => .exn ("Failed during transaction processing: " ++ e)
  | o => o

/-- Embeds `_transaction_sender_and_confirmation_waiter` (lines 299-387):
`effective_lvbh` is the fetched last-valid-block-height minus the buffer
(lines 316-319); the transaction is sent (`sendResult`, lines 326-329);
with `skip_confirmation_check` the signature is returned at once
(lines 332-334); otherwise the confirmation loop runs `retries + 1` times
and any exception it lets escape is converted to a returned value by the
closing handler. -/
def transaction_sender_and_confirmation_waiter (cfg : WaiterConfig)
    (sendResult : Except String String) (polls : Nat → PollResult)
    (heights : Nat → Except String Int) (lastValidBlockHeight : Int) :
    List Event × Outcome :=
  let effective_lvbh := lastValidBlockHeight - cfg.last_valid_block_height_buffer
  match sendResult with
  | .error e => ([], handleWaiterExn (.raised e))
  | .ok sig =>
    if cfg.skip_confirmation_check then ([], .confirmedSig sig)
    else
      let r := confirmationLoop cfg polls heights effective_lvbh sig
        (cfg.confirmation_retries + 1) 0
      (r.1, handleWaiterExn r.2)

/-- Collaborator behaviour visible to `perform_swap`: whether the swap
response has a `txn` field, whether its base64 payload decodes,
whether `VersionedTransaction.from_bytes` succeeds, the
`get_latest_blockhash` response (a raise, a null value, or the
last-valid-block-height), the `send_raw_transaction` result, and the
poll / height oracles of the confirmation loop. -/
structure SwapEnv where
  txnFieldPresent : Bool
  base64Valid : Bool
  fromBytes : Except String Unit
  blockhashResp : Except String (Option Int)
  sendResult : Except String String
  polls : Nat → PollResult
  heights : Nat → Except String Int

/-- Embeds the `try` body and handlers of `perform_swap` (lines 249-297),
after option resolution: a missing `txn` field returns a ValueError
(lines 251-254); a base64 failure is caught by the `binascii.Error` handler
and returned as a ValueError (lines 292-294); any other raised exception is
caught by the generic handler and returned as a value (lines 295-297); a
null blockhash value returns a RuntimeError (lines 269-272); otherwise the
waiter runs and its result is returned. -/
def perform_swap (cfg : WaiterConfig) (env : SwapEnv) : List Event × Outcome :=
  if !env.txnFieldPresent then
    ([], .valueError ("Swap response dictionary must contain a txn field."))
  else if !env.base64Valid then
    ([], .valueError ("Invalid base64 transaction string"))
  else
    match env.fromBytes with
    | .error e => ([], .exn e)
    | .ok _ =>
      match env.blockhashResp with
      | .error e => ([], .exn e)
      | .ok none => ([], .runtimeError ("Failed to fetch latest blockhash."))
      | .ok (some lastValidBlockHeight) =>
        transaction_sender_and_confirmation_waiter cfg env.sendResult
          env.polls env.heights lastValidBlockHeight

/-- Number of status-poll calls recorded in a trace. -/
def countPolls (evs : List Event) : Nat :=
  (evs.filter fun e => match e with | .pollCall _ => true | _ => false).length

/-- Number of block-height checks recorded in a trace. -/
def countHeights (evs : List Event) : Nat :=
  (evs.filter fun e => match e with | .heightCall _ => true | _ => false).length

/-- Sleep durations preceding the next poll call of a trace. -/
def sleepsUntilPoll : List Event → List Nat
  | [] => []
  | .pollCall _ :: _ => []
  | .sleep ms :: rest => ms :: sleepsUntilPoll rest
  | .heightCall _ :: rest => sleepsUntilPoll rest

/-- Sleep durations between the first and the second poll call of a trace. -/
def sleepsBetweenFirstTwoPolls : List Event → List Nat
  | [] => []
  | .pollCall _ :: rest => sleepsUntilPoll rest
  | .sleep _ :: rest => sleepsBetweenFirstTwoPolls rest
  | .heightCall _ :: rest => sleepsBetweenFirstTwoPolls rest

/-- Whether an outcome is an exception escaping uncaught (as opposed to a
value returned to the caller). -/
def isRaised : Outcome → Bool
  | .raised _ => true
  | _ => false

/-- A sample signature string used by the concrete scenarios. -/
def sigEx : String := "5VERYSig"

/-- Poll counting distributes over trace concatenation. -/
theorem countPolls_append (xs ys : List Event) :
    countPolls (xs ++ ys) = countPolls xs + countPolls ys := by
  simp [countPolls, List.filter_append]

/-- Height-check counting distributes over trace concatenation. -/
theorem countHeights_append (xs ys : List Event) :
    countHeights (xs ++ ys) = countHeights xs + countHeights ys := by
  simp [countHeights, List.filter_append]

/-- The leading conditional sleep contains no poll calls. -/
theorem countPolls_preSleep (cfg : WaiterConfig) (a : Nat) :
    countPolls (preSleep cfg a) = 0 := by
  unfold preSleep; split <;> rfl

/-- The leading conditional sleep contains no height checks. -/
theorem countHeights_preSleep (cfg : WaiterConfig) (a : Nat) :
    countHeights (preSleep cfg a) = 0 := by
  unfold preSleep; split <;> rfl

/-- C7: on the three known levels the comparator agrees exactly with ≥ of
the rank order Processed < Confirmed < Finalized; in particular it is
reflexive, Finalized suffices for Processed, Confirmed suffices for
Confirmed, and Processed does not suffice for Finalized. Monotonicity is the
order characterisation in the first conjunct. -/
theorem commitment_order_correct :
    (∀ x y : Level, (is_commitment_level_sufficient (levelStr x)
        (levelStr y)).1 = decide (levelRank y ≤ levelRank x))
    ∧ (∀ x : Level, (is_commitment_level_sufficient (levelStr x)
        (levelStr x)).1 = true)
    ∧ (is_commitment_level_sufficient (levelStr .finalized)
        (levelStr .processed)).1 = true
    ∧ (is_commitment_level_sufficient (levelStr .confirmed)
        (levelStr .confirmed)).1 = true
    ∧ (is_commitment_level_sufficient (levelStr .processed)
        (levelStr .finalized)).1 = false := by
  decide

/-- C8: when either argument of the comparator is unknown (its integer code
is `-1`, the code every unparseable status string receives), the comparator
reports insufficient and takes the warning branch, whatever the other
argument is; the embedded function is total, matching that the Python code
returns rather than raises. -/
theorem unknown_commitment_insufficient (s d : String)
    (h : commitment_level_to_int s = -1 ∨ commitment_level_to_int d = -1) :
    is_commitment_level_sufficient s d = (false, true) := by
  unfold is_commitment_level_sufficient
  rcases h with h | h <;> simp [h]

/-- A status string no parser recognises, for the C8 witness. -/
def bogusStatus : String := "bogus-status"

/-- An unknown status string compared against the desired level Finalized:
the comparator yields insufficient plus a warning. -/
theorem unknown_commitment_insufficient_witness :
    commitment_level_to_int bogusStatus = -1
    ∧ is_commitment_level_sufficient bogusStatus
        (levelStr .finalized) = (false, true) :=
  ⟨by decide, unknown_commitment_insufficient _ _ (Or.inl (by decide))⟩

/-- C10: any string whose lowercase form is none of processed, confirmed,
finalized resolves to the Confirmed level with the warning branch taken, so
a misspelled desired-commitment option makes Confirmed the confirmation
target instead of being rejected. -/
theorem invalid_commitment_string_defaults_confirmed (s : String)
    (h1 : pyLower s ≠ "processed") (h2 : pyLower s ≠ "confirmed")
    (h3 : pyLower s ≠ "finalized") :
    string_to_solana_commitment s = (.confirmed, true) := by
  simp [string_to_solana_commitment, h1, h2, h3]

/-- C6: with `skip_confirmation_check` set, a successful send returns the
Confirmed outcome — the signature — immediately, and the trace is empty: no
status poll and no in-loop height check is issued. -/
theorem skip_confirmation_returns_immediately (cfg : WaiterConfig)
    (polls : Nat → PollResult) (heights : Nat → Except String Int)
    (lvbh : Int) (sig : String)
    (hskip : cfg.skip_confirmation_check = true) :
    transaction_sender_and_confirmation_waiter cfg (.ok sig) polls heights lvbh
        = ([], .confirmedSig sig)
    ∧ countPolls (transaction_sender_and_confirmation_waiter cfg (.ok sig)
        polls heights lvbh).1 = 0
    ∧ countHeights (transaction_sender_and_confirmation_waiter cfg (.ok sig)
        polls heights lvbh).1 = 0 := by
  have h : transaction_sender_and_confirmation_waiter cfg (.ok sig) polls
      heights lvbh = ([], .confirmedSig sig) := by
    simp [transaction_sender_and_confirmation_waiter, hskip]
  exact ⟨h, by rw [h]; rfl, by rw [h]; rfl⟩

/-- A configuration with the confirmation check skipped and every other
option at its default value. -/
def cfgSkip : WaiterConfig :=
  { confirmation_retries := 30
    confirmation_retry_timeout_ms := 1000
    confirmation_check_interval_ms := 1000
    last_valid_block_height_buffer := 150
    commitment := .confirmed
    skip_confirmation_check := true }

/-- With the confirmation check skipped, the waiter returns the signature at
once with an empty trace, even though the poll oracle would report failures. -/
theorem skip_confirmation_returns_immediately_witness :
    cfgSkip.skip_confirmation_check = true
    ∧ (transaction_sender_and_confirmation_waiter cfgSkip (.ok sigEx)
          (fun _ => .status (some sigEx) none) (fun _ => .ok 0) 1000
          = ([], .confirmedSig sigEx)
      ∧ countPolls (transaction_sender_and_confirmation_waiter cfgSkip
          (.ok sigEx) (fun _ => .status (some sigEx) none)
          (fun _ => .ok 0) 1000).1 = 0
      ∧ countHeights (transaction_sender_and_confirmation_waiter cfgSkip
          (.ok sigEx) (fun _ => .status (some sigEx) none)
          (fun _ => .ok 0) 1000).1 = 0) :=
  ⟨rfl, skip_confirmation_returns_immediately cfgSkip _ _ 1000 sigEx rfl⟩

/-- The closing handler of the waiter never lets an exception escape. -/
theorem isRaised_handleWaiterExn (o : Outcome) :
    isRaised (handleWaiterExn o) = false := by
  cases o <;> rfl

/-- The waiter returns a value for every send result and every oracle. -/
theorem waiter_never_raises (cfg : WaiterConfig)
    (sendResult : Except String String) (polls : Nat → PollResult)
    (heights : Nat → Except String Int) (lvbh : Int) :
    isRaised (transaction_sender_and_confirmation_waiter cfg sendResult polls
      heights lvbh).2 = false := by
  unfold transaction_sender_and_confirmation_waiter
  rcases sendResult with e | sig
  · show isRaised (handleWaiterExn (.raised e)) = false
    exact isRaised_handleWaiterExn _
  · cases hs : cfg.skip_confirmation_check
    · show isRaised (handleWaiterExn (confirmationLoop cfg polls heights
          (lvbh - cfg.last_valid_block_height_buffer) sig
          (cfg.confirmation_retries + 1) 0).2) = false
      exact isRaised_handleWaiterExn _
    · show isRaised (.confirmedSig sig) = false
      rfl

/-- C9: for every configuration and every collaborator behaviour — a missing
txn field, an invalid base64 payload, a deserialization failure, a blockhash
fetch failure or null value, a send failure, and any sequence of poll and
height-check responses — `perform_swap` ends in an explicitly returned
outcome; no exception escapes uncaught. -/
theorem perform_swap_never_raises (cfg : WaiterConfig) (env : SwapEnv) :
    isRaised (perform_swap cfg env).2 = false := by
  unfold perform_swap
  cases h1 : env.txnFieldPresent <;> cases h2 : env.base64Valid <;>
    simp [h1, h2, isRaised]
  rcases env.fromBytes with e | u
  · rfl
  · rcases env.blockhashResp with e | ob
    · rfl
    · rcases ob with _ | lvbh
      · rfl
      · exact waiter_never_raises cfg env.sendResult env.polls env.heights lvbh

/-- C3: whenever the status poll of an iteration reports a confirmation
level sufficient for the desired commitment, the loop returns the Confirmed
outcome carrying the signature on that very iteration: its trace is the
leading sleep plus that single poll, with no height check and no further
polling — independent of anything earlier iterations observed. -/
theorem sufficient_observation_confirms (cfg : WaiterConfig)
    (polls : Nat → PollResult) (heights : Nat → Except String Int)
    (effectiveLvbh : Int) (sig : String) (fuel attempt : Nat) (lvl : Level)
    (hpoll : polls attempt = .status none (some lvl))
    (hsuff : (is_commitment_level_sufficient (levelStr lvl)
      (levelStr cfg.commitment)).1 = true) :
    confirmationLoop cfg polls heights effectiveLvbh sig (fuel + 1) attempt
        = (preSleep cfg attempt ++ [.pollCall attempt], .confirmedSig sig)
    ∧ countPolls (confirmationLoop cfg polls heights effectiveLvbh sig
        (fuel + 1) attempt).1 = 1
    ∧ countHeights (confirmationLoop cfg polls heights effectiveLvbh sig
        (fuel + 1) attempt).1 = 0 := by
  have h : confirmationLoop cfg polls heights effectiveLvbh sig (fuel + 1)
      attempt = (preSleep cfg attempt ++ [.pollCall attempt],
        .confirmedSig sig) := by
    unfold confirmationLoop
    rw [hpoll]
    simp [hsuff]
  refine ⟨h, ?_, ?_⟩ <;> rw [h]
  · rw [countPolls_append, countPolls_preSleep]; rfl
  · rw [countHeights_append, countHeights_preSleep]; rfl

/-- The poll sequence of the C3 scenario: not yet visible, then Processed,
then Confirmed. -/
def pollsScenario : Nat → PollResult
  | 0 => .notVisible
  | 1 => .status none (some .processed)
  | _ => .status none (some .confirmed)

/-- A configuration at the default option values (desired commitment
Confirmed, 30 retries, confirmation checking on). -/
def cfgDefault : WaiterConfig :=
  { confirmation_retries := 30
    confirmation_retry_timeout_ms := 1000
    confirmation_check_interval_ms := 1000
    last_valid_block_height_buffer := 150
    commitment := .confirmed
    skip_confirmation_check := false }

/-- The C3 scenario run in full: desired commitment Confirmed, polls not yet
visible then Processed then Confirmed, chain height comfortably past the
effective expiry height of 850; the third iteration observes a sufficient
level, the loop from that iteration confirms at once (by the C3 theorem),
and the whole run confirms with exactly three polls. -/
theorem sufficient_observation_confirms_witness :
    pollsScenario 2 = .status none (some .confirmed)
    ∧ (is_commitment_level_sufficient (levelStr .confirmed)
        (levelStr cfgDefault.commitment)).1 = true
    ∧ (confirmationLoop cfgDefault pollsScenario (fun _ => .ok 10000) 850
          sigEx (28 + 1) 2
          = (preSleep cfgDefault 2 ++ [.pollCall 2], .confirmedSig sigEx)
      ∧ countPolls (confirmationLoop cfgDefault pollsScenario
          (fun _ => .ok 10000) 850 sigEx (28 + 1) 2).1 = 1
      ∧ countHeights (confirmationLoop cfgDefault pollsScenario
          (fun _ => .ok 10000) 850 sigEx (28 + 1) 2).1 = 0)
    ∧ (transaction_sender_and_confirmation_waiter cfgDefault (.ok sigEx)
        pollsScenario (fun _ => .ok 10000) 1000).2 = .confirmedSig sigEx
    ∧ countPolls (transaction_sender_and_confirmation_waiter cfgDefault
        (.ok sigEx) pollsScenario (fun _ => .ok 10000) 1000).1 = 3 :=
  ⟨rfl, by decide,
    sufficient_observation_confirms cfgDefault pollsScenario
      (fun _ => .ok 10000) 850 sigEx 28 2 .confirmed rfl (by decide),
    by decide, by decide⟩

/-- C4: whenever the status poll of an iteration reports an on-chain error
for the signature, the loop returns a Failed outcome carrying exactly that
error detail and the signature on that very iteration, before the height
check of that iteration and with no further polls. -/
theorem onchain_error_fails_immediately (cfg : WaiterConfig)
    (polls : Nat → PollResult) (heights : Nat → Except String Int)
    (effectiveLvbh : Int) (sig : String) (fuel attempt : Nat)
    (e : String) (confSt : Option Level)
    (hpoll : polls attempt = .status (some e) confSt) :
    confirmationLoop cfg polls heights effectiveLvbh sig (fuel + 1) attempt
        = (preSleep cfg attempt ++ [.pollCall attempt], .failedTx sig e)
    ∧ countPolls (confirmationLoop cfg polls heights effectiveLvbh sig
        (fuel + 1) attempt).1 = 1
    ∧ countHeights (confirmationLoop cfg polls heights effectiveLvbh sig
        (fuel + 1) attempt).1 = 0 := by
  have h : confirmationLoop cfg polls heights effectiveLvbh sig (fuel + 1)
      attempt = (preSleep cfg attempt ++ [.pollCall attempt],
        .failedTx sig e) := by
    unfold confirmationLoop
    rw [hpoll]
  refine ⟨h, ?_, ?_⟩ <;> rw [h]
  · rw [countPolls_append, countPolls_preSleep]; rfl
  · rw [countHeights_append, countHeights_preSleep]; rfl

/-- The on-chain error detail of the C4 witness scenario. -/
def instrErr : String := "InstructionError(2, Custom(6001))"

/-- An on-chain error reported on the very first poll: the run terminates at
once with the Failed outcome carrying that detail, after a single poll and
no height check. -/
theorem onchain_error_fails_immediately_witness :
    (fun _ : Nat => PollResult.status (some instrErr) none) 0
        = .status (some instrErr) none
    ∧ (confirmationLoop cfgDefault
          (fun _ => .status (some instrErr) none) (fun _ => .ok 10000) 850
          sigEx (30 + 1) 0
          = (preSleep cfgDefault 0 ++ [.pollCall 0], .failedTx sigEx instrErr)
      ∧ countPolls (confirmationLoop cfgDefault
          (fun _ => .status (some instrErr) none) (fun _ => .ok 10000) 850
          sigEx (30 + 1) 0).1 = 1
      ∧ countHeights (confirmationLoop cfgDefault
          (fun _ => .status (some instrErr) none) (fun _ => .ok 10000) 850
          sigEx (30 + 1) 0).1 = 0) :=
  ⟨rfl, onchain_error_fails_immediately cfgDefault _ _ 850 sigEx 30 0
    instrErr none rfl⟩

/-- A configuration with two confirmation retries and every other option at
its default value. -/
def cfgExpiry : WaiterConfig :=
  { confirmation_retries := 2
    confirmation_retry_timeout_ms := 1000
    confirmation_check_interval_ms := 1000
    last_valid_block_height_buffer := 150
    commitment := .confirmed
    skip_confirmation_check := false }

/-- C1: with reference height 1000 and buffer 150 the effective expiry
height is 850, and a height check returning 900 — a value past the effective
expiry height — does not produce the Expired outcome: the code only expires
when the observed height is strictly below the effective expiry height (the
comparison at line 374 is inverted), so the run keeps polling and ends in
the confirmation timeout. -/
theorem timeout_despite_height_past_expiry :
    (900 : Int) ≥ 1000 - cfgExpiry.last_valid_block_height_buffer
    ∧ (transaction_sender_and_confirmation_waiter cfgExpiry (.ok sigEx)
        (fun _ => .notVisible) (fun _ => .ok 900) 1000).2 = .timedOut sigEx
    ∧ countHeights (transaction_sender_and_confirmation_waiter cfgExpiry
        (.ok sigEx) (fun _ => .notVisible) (fun _ => .ok 900) 1000).1 = 3 := by
  refine ⟨by decide, ?_, ?_⟩ <;> decide

/-- C2: with confirmation retries N = 2, every poll not yet visible, and
every height check returning 0 — strictly below the effective expiry height
850 — the run does not perform N + 1 = 3 polls and time out: the inverted
height comparison at line 374 makes the very first height check look like an
expiry, so the run stops after a single poll with the Expired outcome. -/
theorem expired_despite_heights_below_expiry :
    cfgExpiry.confirmation_retries = 2
    ∧ (0 : Int) < 1000 - cfgExpiry.last_valid_block_height_buffer
    ∧ (transaction_sender_and_confirmation_waiter cfgExpiry (.ok sigEx)
        (fun _ => .notVisible) (fun _ => .ok 0) 1000).2 = .expired sigEx 0
    ∧ countPolls (transaction_sender_and_confirmation_waiter cfgExpiry
        (.ok sigEx) (fun _ => .notVisible) (fun _ => .ok 0) 1000).1 = 1 := by
  refine ⟨rfl, by decide, ?_, ?_⟩ <;> decide

/-- A configuration whose retry-timeout backoff (1500 ms) differs from its
check interval (1000 ms), so the two delays can be told apart in a trace. -/
def cfgBackoff : WaiterConfig :=
  { confirmation_retries := 5
    confirmation_retry_timeout_ms := 1500
    confirmation_check_interval_ms := 1000
    last_valid_block_height_buffer := 150
    commitment := .confirmed
    skip_confirmation_check := false }

/-- The poll sequence of the C5 scenario: a transport error on the first
poll, then an observed Finalized status. -/
def pollsBackoff : Nat → PollResult
  | 0 => .transportError
  | _ => .status none (some .finalized)

/-- C5 counterexample: a transport error on poll 1 followed by a sufficient
observation on poll 2 yields the Confirmed outcome, but the sleeps between
the two polls are the 1500 ms retry timeout followed by the regular 1000 ms
check interval — 2500 ms in total, not equal to the retry timeout alone as
the claim requires. -/
theorem transport_backoff_counterexample :
    (transaction_sender_and_confirmation_waiter cfgBackoff (.ok sigEx)
        pollsBackoff (fun _ => .ok 10000) 1000).2 = .confirmedSig sigEx
    ∧ sleepsBetweenFirstTwoPolls (transaction_sender_and_confirmation_waiter
        cfgBackoff (.ok sigEx) pollsBackoff (fun _ => .ok 10000) 1000).1
        = [1500, 1000]
    ∧ List.sum (sleepsBetweenFirstTwoPolls
        (transaction_sender_and_confirmation_waiter cfgBackoff (.ok sigEx)
          pollsBackoff (fun _ => .ok 10000) 1000).1)
        ≠ cfgBackoff.confirmation_retry_timeout_ms := by
  refine ⟨?_, ?_, ?_⟩ <;> decide

/-- At a positive attempt number the loop always opens with the
check-interval sleep followed by the poll of that attempt, so the sleeps a
trace records before its first poll are exactly the check interval. -/
theorem sleepsUntilPoll_loop (cfg : WaiterConfig) (polls : Nat → PollResult)
    (heights : Nat → Except String Int) (effectiveLvbh : Int) (sig : String)
    (fuel attempt : Nat) (ha : 0 < attempt) :
    sleepsUntilPoll (confirmationLoop cfg polls heights effectiveLvbh sig
      (fuel + 1) attempt).1 = [cfg.confirmation_check_interval_ms] := by
  have hps : preSleep cfg attempt
      = [.sleep cfg.confirmation_check_interval_ms] := by
    unfold preSleep
    rw [if_pos (Or.inl ha)]
  unfold confirmationLoop
  rcases polls attempt with _ | ⟨_ | e, _ | lvl⟩ | _ <;>
    rcases heights attempt with e₂ | bh <;>
    simp only [hps] <;>
    try split_ifs
  all_goals simp [sleepsUntilPoll]

/-- C5 amended: a transport error during a status poll is followed by the
retry-timeout sleep in addition to — not instead of — the regular
check-interval sleep of the next iteration: when the height check of the
same iteration does not trigger the expiry return, the sleeps recorded
between that poll and the next are exactly the retry timeout and then the
check interval. -/
theorem transport_backoff_adds_interval (cfg : WaiterConfig)
    (polls : Nat → PollResult) (heights : Nat → Except String Int)
    (effectiveLvbh : Int) (sig : String) (fuel attempt : Nat) (h : Int)
    (hpoll : polls attempt = .transportError)
    (hh : heights attempt = .ok h)
    (hnx : ¬ h < effectiveLvbh) :
    sleepsBetweenFirstTwoPolls (confirmationLoop cfg polls heights
        effectiveLvbh sig (fuel + 2) attempt).1
      = [cfg.confirmation_retry_timeout_ms,
         cfg.confirmation_check_interval_ms] := by
  have hrest := sleepsUntilPoll_loop cfg polls heights effectiveLvbh sig fuel
    (attempt + 1) (Nat.succ_pos attempt)
  show sleepsBetweenFirstTwoPolls (confirmationLoop cfg polls heights
    effectiveLvbh sig (fuel + 1 + 1) attempt).1 = _
  unfold confirmationLoop
  rw [hpoll, hh]
  simp only [hnx, if_false]
  unfold preSleep
  split <;>
    simp [sleepsBetweenFirstTwoPolls, sleepsUntilPoll, hrest]

/-- The C5 scenario instantiating the amended backoff theorem: transport
error on the first poll, heights far past the effective expiry height. -/
theorem transport_backoff_adds_interval_witness :
    pollsBackoff 0 = .transportError
    ∧ (fun _ : Nat => (Except.ok (10000 : Int) : Except String Int)) 0
        = (Except.ok (10000 : Int) : Except String Int)
    ∧ ¬ (10000 : Int) < 850
    ∧ sleepsBetweenFirstTwoPolls (confirmationLoop cfgBackoff pollsBackoff
        (fun _ => .ok 10000) 850 sigEx (4 + 2) 0).1
        = [cfgBackoff.confirmation_retry_timeout_ms,
           cfgBackoff.confirmation_check_interval_ms] :=
  ⟨rfl, rfl, by decide,
    transport_backoff_adds_interval cfgBackoff pollsBackoff
      (fun _ => .ok 10000) 850 sigEx 4 0 10000 rfl rfl (by decide)⟩

/-- A misspelled commitment option value, for the C10 witness. -/
def misspelledCommitment : String := "Finalzied"

/-- A misspelled commitment string resolves to Confirmed with a warning. -/
theorem invalid_commitment_string_defaults_confirmed_witness :
    pyLower misspelledCommitment ≠ "processed"
    ∧ pyLower misspelledCommitment ≠ "confirmed"
    ∧ pyLower misspelledCommitment ≠ "finalized"
    ∧ string_to_solana_commitment misspelledCommitment = (.confirmed, true) :=
  ⟨by decide, by decide, by decide,
    invalid_commitment_string_defaults_confirmed _ (by decide) (by decide)
      (by decide)⟩

end SolanaSwap
